import Mathlib

/-!
Shallow embedding of `src/main.py` from the `nearest_stars_model` repository.

The Python program defines pydantic models (`RightAscension`, `Declination`,
`Distance`, `Star`, `MultipleStarSystem`, `NearestStars`, all with
`ConfigDict(extra="forbid")`), coordinate conversion helpers
(`spherical_to_cartesian`, `hours_to_radian`, `dms_to_radians`), a color
lookup (`star_class_color`), and a rendering routine (`display_plot`).

The embedding below models the pydantic validation as parsers from a JSON
value type to `Option`-wrapped model values, the numeric helpers over `ℝ`
(Python floats are modelled as real numbers), and `display_plot` as a
function producing the list of matplotlib scatter/text calls it would make,
in order, or the runtime error it raises.
-/

namespace NSM

/-- The closed enumeration `StarClass(str, Enum)` from the source:
values `A F G K M L T Y D`. -/
inductive StarClass where
  | A | F | G | K | M | L | T | Y | D
deriving DecidableEq, Repr

/-- Pydantic validation of a string against the `StarClass` enum: the string
must be exactly one of the nine enum values. -/
def StarClass.ofString (s : String) : Option StarClass :=
  if s = "A" then some .A
  else if s = "F" then some .F
  else if s = "G" then some .G
  else if s = "K" then some .K
  else if s = "M" then some .M
  else if s = "L" then some .L
  else if s = "T" then some .T
  else if s = "Y" then some .Y
  else if s = "D" then some .D
  else none

/-- `RightAscension`: `hours: int, minutes: int, seconds: float`. -/
structure RightAscension where
  hours : Int
  minutes : Int
  seconds : ℚ
deriving DecidableEq, Repr

/-- `Declination`: `degrees: int, minutes: int, seconds: float`. -/
structure Declination where
  degrees : Int
  minutes : Int
  seconds : ℚ
deriving DecidableEq, Repr

/-- `Distance`: `light_years: float`. -/
structure Distance where
  light_years : ℚ
deriving DecidableEq, Repr

/-- `Star`: name, right ascension, declination, distance and the class tag
(wire name `"class"`, internal name `star_class`). -/
structure Star where
  name : String
  right_ascension : RightAscension
  declination : Declination
  distance : Distance
  star_class : StarClass
deriving DecidableEq, Repr

/-- `MultipleStarSystem`: a name and a plain `list[Star]` — note the source
puts no length constraint on the list. -/
structure MultipleStarSystem where
  name : String
  stars : List Star
deriving DecidableEq, Repr

/-- `NearestStars`: the top-level catalog. -/
structure NearestStars where
  single_star_systems : List Star
  multiple_star_systems : List MultipleStarSystem
deriving DecidableEq, Repr

/-- Raw JSON documents (`json.loads` output): numbers, strings, arrays,
objects.  Numbers are modelled as rationals. -/
inductive Json where
  | num (q : ℚ)
  | str (s : String)
  | arr (elems : List Json)
  | obj (fields : List (String × Json))

/-- First value bound to key `k` in an object's field list. -/
def getKey (kvs : List (String × Json)) (k : String) : Option Json :=
  match kvs with
  | [] => none
  | p :: rest => if p.1 = k then some p.2 else getKey rest k

/-- Pydantic `int` field: accepts a JSON number with no fractional part. -/
def parseInt (j : Json) : Option Int :=
  match j with
  | .num q => if q.den = 1 then some q.num else none
  | _ => none

/-- Pydantic `float` field: accepts any JSON number. -/
def parseNum (j : Json) : Option ℚ :=
  match j with
  | .num q => some q
  | _ => none

/-- Pydantic `str` field: accepts a JSON string. -/
def parseStr (j : Json) : Option String :=
  match j with
  | .str s => some s
  | _ => none

/-- Pydantic `StarClass` field: a JSON string equal to an enum value. -/
def parseClass (j : Json) : Option StarClass :=
  (parseStr j).bind StarClass.ofString

/-- The declared field names of `RightAscension`. -/
def raKeys : List String := ["hours", "minutes", "seconds"]

/-- The declared field names of `Declination`. -/
def decKeys : List String := ["degrees", "minutes", "seconds"]

/-- The declared field names of `Distance`. -/
def distKeys : List String := ["light_years"]

/-- The declared wire-level field names of `Star` (the class tag travels
under its alias `"class"`). -/
def starKeys : List String :=
  ["name", "right_ascension", "declination", "distance", "class"]

/-- The declared field names of `MultipleStarSystem`. -/
def mssKeys : List String := ["name", "stars"]

/-- The declared field names of the top-level `NearestStars` catalog. -/
def catalogKeys : List String := ["single_star_systems", "multiple_star_systems"]

/-- Validation of a `RightAscension` object: `extra="forbid"` rejects any
key outside the declared fields, and each declared field is required. -/
def RightAscension.parse (j : Json) : Option RightAscension :=
  match j with
  | .obj kvs =>
    if kvs.all (fun p => raKeys.contains p.1) then
      ((getKey kvs "hours").bind parseInt).bind (fun h =>
      ((getKey kvs "minutes").bind parseInt).bind (fun m =>
      ((getKey kvs "seconds").bind parseNum).bind (fun s =>
      some ⟨h, m, s⟩)))
    else none
  | _ => none

/-- Validation of a `Declination` object. -/
def Declination.parse (j : Json) : Option Declination :=
  match j with
  | .obj kvs =>
    if kvs.all (fun p => decKeys.contains p.1) then
      ((getKey kvs "degrees").bind parseInt).bind (fun d =>
      ((getKey kvs "minutes").bind parseInt).bind (fun m =>
      ((getKey kvs "seconds").bind parseNum).bind (fun s =>
      some ⟨d, m, s⟩)))
    else none
  | _ => none

/-- Validation of a `Distance` object. -/
def Distance.parse (j : Json) : Option Distance :=
  match j with
  | .obj kvs =>
    if kvs.all (fun p => distKeys.contains p.1) then
      ((getKey kvs "light_years").bind parseNum).bind (fun ly =>
      some ⟨ly⟩)
    else none
  | _ => none

/-- Validation of a `Star` object. -/
def Star.parse (j : Json) : Option Star :=
  match j with
  | .obj kvs =>
    if kvs.all (fun p => starKeys.contains p.1) then
      ((getKey kvs "name").bind parseStr).bind (fun n =>
      ((getKey kvs "right_ascension").bind RightAscension.parse).bind (fun ra =>
      ((getKey kvs "declination").bind Declination.parse).bind (fun de =>
      ((getKey kvs "distance").bind Distance.parse).bind (fun di =>
      ((getKey kvs "class").bind parseClass).bind (fun c =>
      some ⟨n, ra, de, di, c⟩)))))
    else none
  | _ => none

/-- Element-wise validation of a JSON array against a field parser; any
failing element fails the whole list, as pydantic does for `list[...]`. -/
def parseList {α : Type} (p : Json → Option α) : List Json → Option (List α)
  | [] => some []
  | x :: xs =>
    (p x).bind (fun a => (parseList p xs).bind (fun rest => some (a :: rest)))

/-- A `list[Star]` field: a JSON array of valid stars. -/
def parseStarList (j : Json) : Option (List Star) :=
  match j with
  | .arr xs => parseList Star.parse xs
  | _ => none

/-- Validation of a `MultipleStarSystem` object.  The `stars` field is a
plain list: the source imposes no minimum length. -/
def MultipleStarSystem.parse (j : Json) : Option MultipleStarSystem :=
  match j with
  | .obj kvs =>
    if kvs.all (fun p => mssKeys.contains p.1) then
      ((getKey kvs "name").bind parseStr).bind (fun n =>
      ((getKey kvs "stars").bind parseStarList).bind (fun stars =>
      some ⟨n, stars⟩))
    else none
  | _ => none

/-- A `list[MultipleStarSystem]` field. -/
def parseSystemList (j : Json) : Option (List MultipleStarSystem) :=
  match j with
  | .arr xs => parseList MultipleStarSystem.parse xs
  | _ => none

/-- Validation of the whole catalog document, as
`NearestStars.model_validate` does. -/
def NearestStars.parse (j : Json) : Option NearestStars :=
  match j with
  | .obj kvs =>
    if kvs.all (fun p => catalogKeys.contains p.1) then
      ((getKey kvs "single_star_systems").bind parseStarList).bind (fun singles =>
      ((getKey kvs "multiple_star_systems").bind parseSystemList).bind (fun multiples =>
      some ⟨singles, multiples⟩))
    else none
  | _ => none

/-- `dms_to_radians(degrees, minutes, seconds)` from the source:
`(degrees + minutes / 60 + seconds / 3600) * (np.pi / 180)`. -/
noncomputable def dms_to_radians (degrees minutes seconds : ℝ) : ℝ :=
  (degrees + minutes / 60 + seconds / 3600) * (Real.pi / 180)

/-- `hours_to_radian(hours, minutes, seconds)` from the source:
`dms_to_radians(hours * 360 / 24, minutes, seconds)`. -/
noncomputable def hours_to_radian (hours minutes seconds : ℝ) : ℝ :=
  dms_to_radians (hours * 360 / 24) minutes seconds

/-- `spherical_to_cartesian(rho, theta, phi)` from the source. -/
noncomputable def spherical_to_cartesian (rho theta phi : ℝ) : ℝ × ℝ × ℝ :=
  (rho * Real.cos phi * Real.sin theta,
   rho * Real.cos phi * -Real.cos theta,
   rho * Real.sin phi)

/-- `star_class_color` from the source: the fixed lookup table. -/
def star_class_color : StarClass → String
  | .A => "#FFFFFF"
  | .F => "#FFFFE0"
  | .G => "#FFFF00"
  | .K => "#FFA500"
  | .M => "#FF0000"
  | .L => "#FF6347"
  | .T => "#FF69B4"
  | .Y => "#DA70D6"
  | .D => "#808080"

/-- The azimuth angle `display_plot` computes for a star: its right
ascension triple through `hours_to_radian`. -/
noncomputable def raTheta (s : Star) : ℝ :=
  hours_to_radian (s.right_ascension.hours : ℝ) (s.right_ascension.minutes : ℝ)
    (s.right_ascension.seconds : ℝ)

/-- The elevation angle `display_plot` computes for a star: its declination
triple through `dms_to_radians`. -/
noncomputable def decPhi (s : Star) : ℝ :=
  dms_to_radians (s.declination.degrees : ℝ) (s.declination.minutes : ℝ)
    (s.declination.seconds : ℝ)

/-- The Cartesian point `spherical_to_cartesian(rho, θ(s), φ(s))` where the
angles come from star `s` and the radius `rho` is passed separately (the
source does not always take it from `s`, see `renderSystem`). -/
noncomputable def starPoint (rho : ℝ) (s : Star) : ℝ × ℝ × ℝ :=
  spherical_to_cartesian rho (raTheta s) (decPhi s)

/-- One matplotlib call recorded by the rendering model: a `scatter` of
parallel coordinate/color lists, or a `text` label. -/
inductive PlotCmd where
  | scatter (xs ys zs : List ℝ) (colors : List String)
  | text (x y z : ℝ) (label : String)

/-- The two calls the single-star loop body makes for one star: a one-point
scatter colored by its class and a text label, both at the star's own
position (radius = its own distance). -/
noncomputable def renderStar (s : Star) : List PlotCmd :=
  [PlotCmd.scatter [(starPoint (s.distance.light_years : ℝ) s).1]
     [(starPoint (s.distance.light_years : ℝ) s).2.1]
     [(starPoint (s.distance.light_years : ℝ) s).2.2]
     [star_class_color s.star_class],
   PlotCmd.text (starPoint (s.distance.light_years : ℝ) s).1
     (starPoint (s.distance.light_years : ℝ) s).2.1
     (starPoint (s.distance.light_years : ℝ) s).2.2 s.name]

/-- All calls of the single-star loop, in order. -/
noncomputable def renderStars : List Star → List PlotCmd
  | [] => []
  | s :: rest => renderStar s ++ renderStars rest

/-- The calls the multiple-star loop body makes for one system.  Faithful to
the source's bug: the radius passed to `spherical_to_cartesian` is
`star.distance.light_years` where `star` is the leftover variable of the
single-star loop, while the two angles come from `system.stars[0]`.
An empty `stars` list raises `IndexError` at `system.stars[0]`; a system
with a star count other than 2 or 3 gets no scatter call, only the label. -/
noncomputable def renderSystem (leftover : Star) (sys : MultipleStarSystem) :
    Except String (List PlotCmd) :=
  match sys.stars with
  | [] => Except.error "IndexError"
  | first :: _ =>
    (if sys.stars.length = 2 then
      Except.ok
        [PlotCmd.scatter
          [(starPoint (leftover.distance.light_years : ℝ) first).1,
           (starPoint (leftover.distance.light_years : ℝ) first).1]
          [(starPoint (leftover.distance.light_years : ℝ) first).2.1,
           (starPoint (leftover.distance.light_years : ℝ) first).2.1]
          [(starPoint (leftover.distance.light_years : ℝ) first).2.2 - 0.2,
           (starPoint (leftover.distance.light_years : ℝ) first).2.2 + 0.2]
          (sys.stars.map (fun t => star_class_color t.star_class)),
         PlotCmd.text (starPoint (leftover.distance.light_years : ℝ) first).1
           (starPoint (leftover.distance.light_years : ℝ) first).2.1
           (starPoint (leftover.distance.light_years : ℝ) first).2.2 sys.name]
     else if sys.stars.length = 3 then
      Except.ok
        [PlotCmd.scatter
          [(starPoint (leftover.distance.light_years : ℝ) first).1,
           (starPoint (leftover.distance.light_years : ℝ) first).1,
           (starPoint (leftover.distance.light_years : ℝ) first).1]
          [(starPoint (leftover.distance.light_years : ℝ) first).2.1,
           (starPoint (leftover.distance.light_years : ℝ) first).2.1,
           (starPoint (leftover.distance.light_years : ℝ) first).2.1]
          [(starPoint (leftover.distance.light_years : ℝ) first).2.2 - 0.4,
           (starPoint (leftover.distance.light_years : ℝ) first).2.2,
           (starPoint (leftover.distance.light_years : ℝ) first).2.2 + 0.4]
          (sys.stars.map (fun t => star_class_color t.star_class)),
         PlotCmd.text (starPoint (leftover.distance.light_years : ℝ) first).1
           (starPoint (leftover.distance.light_years : ℝ) first).2.1
           (starPoint (leftover.distance.light_years : ℝ) first).2.2 sys.name]
     else
      Except.ok
        [PlotCmd.text (starPoint (leftover.distance.light_years : ℝ) first).1
           (starPoint (leftover.distance.light_years : ℝ) first).2.1
           (starPoint (leftover.distance.light_years : ℝ) first).2.2 sys.name])

/-- All calls of the multiple-star loop, in order, with the same leftover
single-loop variable throughout (Python 3 list comprehensions do not leak
their variable, so `star` keeps its single-loop value). -/
noncomputable def renderSystems (leftover : Star) :
    List MultipleStarSystem → Except String (List PlotCmd)
  | [] => Except.ok []
  | sys :: rest =>
    match renderSystem leftover sys with
    | Except.ok cmds =>
      match renderSystems leftover rest with
      | Except.ok more => Except.ok (cmds ++ more)
      | Except.error e => Except.error e
    | Except.error e => Except.error e

/-- `display_plot` as a trace of scatter/text calls.  If the single-star
list is empty but the multiple-star list is not, the first read of the
loop variable `star` in the multiple-star loop raises `NameError` before
any multiple-star point is produced. -/
noncomputable def display_plot (ns : NearestStars) : Except String (List PlotCmd) :=
  match ns.single_star_systems.getLast? with
  | some leftover =>
    match renderSystems leftover ns.multiple_star_systems with
    | Except.ok cmds => Except.ok (renderStars ns.single_star_systems ++ cmds)
    | Except.error e => Except.error e
  | none =>
    match ns.multiple_star_systems with
    | [] => Except.ok (renderStars ns.single_star_systems)
    | _ :: _ => Except.error "NameError"

/-! ### Concrete catalog values used in counterexamples and witnesses -/

/-- A single star at RA (0h 0m 0s), declination (0° 0ʹ 0ʺ), distance 1 ly. -/
def exS1 : Star := ⟨"S1", ⟨0, 0, 0⟩, ⟨0, 0, 0⟩, ⟨1⟩, .M⟩

/-- First star of the example system: declination 90°, distance 2 ly. -/
def exT1 : Star := ⟨"T1", ⟨0, 0, 0⟩, ⟨90, 0, 0⟩, ⟨2⟩, .M⟩

/-- Second star of the example system. -/
def exT2 : Star := ⟨"T2", ⟨0, 0, 0⟩, ⟨90, 0, 0⟩, ⟨2⟩, .K⟩

/-- A two-star system whose first star is `exT1`. -/
def exSys : MultipleStarSystem := ⟨"Sys", [exT1, exT2]⟩

/-- A catalog with one single star and one two-star system. -/
def exNS : NearestStars := ⟨[exS1], [exSys]⟩

/-- A catalog with no single stars and one multiple-star system. -/
def exEmptySinglesNS : NearestStars := ⟨[], [exSys]⟩

/-! ### Evaluation lemmas for the example values -/

theorem raTheta_exS1 : raTheta exS1 = 0 := by
  simp [raTheta, exS1, hours_to_radian, dms_to_radians]

theorem decPhi_exS1 : decPhi exS1 = 0 := by
  simp [decPhi, exS1, dms_to_radians]

theorem raTheta_exT1 : raTheta exT1 = 0 := by
  simp [raTheta, exT1, hours_to_radian, dms_to_radians]

theorem decPhi_exT1 : decPhi exT1 = Real.pi / 2 := by
  simp only [decPhi, exT1, dms_to_radians]
  push_cast
  ring

theorem starPoint_one_exS1 : starPoint 1 exS1 = (0, -1, 0) := by
  unfold starPoint spherical_to_cartesian
  rw [raTheta_exS1, decPhi_exS1]
  norm_num

theorem starPoint_one_exT1 : starPoint 1 exT1 = (0, 0, 1) := by
  unfold starPoint spherical_to_cartesian
  rw [raTheta_exT1, decPhi_exT1]
  norm_num [Real.cos_pi_div_two, Real.sin_pi_div_two]

theorem exS1_rho : ((exS1.distance.light_years : ℚ) : ℝ) = 1 := by
  norm_num [exS1]

theorem renderSystem_exS1_exSys :
    renderSystem exS1 exSys = Except.ok
      [PlotCmd.scatter [0, 0] [0, 0] [0.8, 1.2] ["#FF0000", "#FFA500"],
       PlotCmd.text 0 0 1 "Sys"] := by
  unfold renderSystem
  simp only [exSys, exS1_rho, starPoint_one_exT1]
  norm_num [exT1, exT2, star_class_color]

theorem renderStar_exS1 :
    renderStar exS1 = [PlotCmd.scatter [0] [-1] [0] ["#FF0000"],
      PlotCmd.text 0 (-1) 0 "S1"] := by
  unfold renderStar
  simp only [exS1_rho, starPoint_one_exS1]
  norm_num [exS1, star_class_color]

theorem display_plot_exNS :
    display_plot exNS = Except.ok
      [PlotCmd.scatter [0] [-1] [0] ["#FF0000"],
       PlotCmd.text 0 (-1) 0 "S1",
       PlotCmd.scatter [0, 0] [0, 0] [0.8, 1.2] ["#FF0000", "#FFA500"],
       PlotCmd.text 0 0 1 "Sys"] := by
  unfold display_plot
  simp [exNS, renderSystem_exS1_exSys, renderStar_exS1, renderSystems, renderStars]

/-! ### Claim C1: the hours-to-radians conversion -/

/-- C1 counterexample: `hours_to_radian` does NOT equal
`dms_to_radians(hours, minutes, seconds) * 15` on every triple — at
`(0, 60, 0)` the source yields `π/180` while the claimed formula yields
`π/12`. -/
theorem hours_to_radian_ne_whole_dms_times_15 :
    hours_to_radian 0 60 0 ≠ dms_to_radians 0 60 0 * 15 := by
  unfold hours_to_radian dms_to_radians
  intro hEq
  have hπ := Real.pi_pos
  nlinarith [hπ]

/-- C1 amended: `hours_to_radian(h, m, s)` equals
`dms_to_radians(h * 15, m, s)` — only the hours component is scaled by 15
before the standard degrees-minutes-seconds combination. -/
theorem hours_to_radian_eq_dms_of_scaled_hours (h m s : ℝ) :
    hours_to_radian h m s = dms_to_radians (h * 15) m s := by
  unfold hours_to_radian dms_to_radians
  ring

/-! ### Claim C5: the spherical-to-Cartesian formula -/

/-- C5: `spherical_to_cartesian(r, θ, φ)` is exactly
`(r·cos φ·sin θ, r·cos φ·(−cos θ), r·sin φ)`; in particular radius 0 gives
the origin and zero angles give `(0, −r, 0)`. -/
theorem spherical_to_cartesian_spec :
    (∀ r t p : ℝ, spherical_to_cartesian r t p =
        (r * Real.cos p * Real.sin t, r * Real.cos p * -Real.cos t,
         r * Real.sin p)) ∧
    (∀ t p : ℝ, spherical_to_cartesian 0 t p = (0, 0, 0)) ∧
    (∀ r : ℝ, spherical_to_cartesian r 0 0 = (0, -r, 0)) := by
  refine ⟨fun r t p => rfl, fun t p => ?_, fun r => ?_⟩ <;>
    simp [spherical_to_cartesian]

/-! ### Claim C6: the color table -/

/-- C6 counterexample: the source maps class `A` to `"#FFFFFF"`, not the
claimed `"#D7E1FF"`. -/
theorem star_class_color_A_differs :
    star_class_color StarClass.A = "#FFFFFF" ∧ "#FFFFFF" ≠ "#D7E1FF" :=
  ⟨rfl, by decide⟩

/-- C6 amended: `star_class_color` is the total table
`{A: #FFFFFF, F: #FFFFE0, G: #FFFF00, K: #FFA500, M: #FF0000, L: #FF6347,
T: #FF69B4, Y: #DA70D6, D: #808080}` — identical to the claim except that
`A` maps to `#FFFFFF`. -/
theorem star_class_color_table :
    star_class_color StarClass.A = "#FFFFFF" ∧
    star_class_color StarClass.F = "#FFFFE0" ∧
    star_class_color StarClass.G = "#FFFF00" ∧
    star_class_color StarClass.K = "#FFA500" ∧
    star_class_color StarClass.M = "#FF0000" ∧
    star_class_color StarClass.L = "#FF6347" ∧
    star_class_color StarClass.T = "#FF69B4" ∧
    star_class_color StarClass.Y = "#DA70D6" ∧
    star_class_color StarClass.D = "#808080" :=
  ⟨rfl, rfl, rfl, rfl, rfl, rfl, rfl, rfl, rfl⟩

/-! ### Claim C2: the radius used for a multiple-star system -/

theorem starPoint_two_exT1 : starPoint 2 exT1 = (0, 0, 2) := by
  unfold starPoint spherical_to_cartesian
  rw [raTheta_exT1, decPhi_exT1]
  norm_num [Real.cos_pi_div_two, Real.sin_pi_div_two]

/-- C2: evaluating `display_plot` on a catalog whose single star has
distance 1 and whose system's first star `exT1` has distance 2 shows the
system is rendered at `z = 1`: the radius passed to
`spherical_to_cartesian` is the leftover single-loop variable's distance,
not the first star's distance 2 (which would have put the point at
`z = 2`, as `starPoint 2 exT1` shows). -/
theorem display_plot_radius_from_leftover_star :
    display_plot exNS = Except.ok
      [PlotCmd.scatter [0] [-1] [0] ["#FF0000"],
       PlotCmd.text 0 (-1) 0 "S1",
       PlotCmd.scatter [0, 0] [0, 0] [0.8, 1.2] ["#FF0000", "#FFA500"],
       PlotCmd.text 0 0 1 "Sys"] ∧
    exS1.distance.light_years = 1 ∧
    exSys.stars.map (fun t => t.distance.light_years) = [2, 2] ∧
    starPoint 2 exT1 = (0, 0, 2) ∧
    (1 : ℝ) ≠ 2 :=
  ⟨display_plot_exNS, rfl, rfl, starPoint_two_exT1, by norm_num⟩

/-! ### Claim C4: the vertical stack offsets -/

/-- C4 counterexample: at a concrete two-star system the rendered z values
are `z ∓ 0.2`, not the claimed `z ∓ 0.3`: with the system point at
`z = 1`, the scatter z list is `[0.8, 1.2]`, not `[0.7, 1.3]`. -/
theorem renderSystem_offset_not_point_three :
    renderSystem exS1 exSys = Except.ok
      [PlotCmd.scatter [0, 0] [0, 0] [0.8, 1.2] ["#FF0000", "#FFA500"],
       PlotCmd.text 0 0 1 "Sys"] ∧
    ([0.8, 1.2] : List ℝ) ≠ [1 - 0.3, 1 + 0.3] :=
  ⟨renderSystem_exS1_exSys, by norm_num⟩

/-- C4 amended: for a system with exactly 2 stars the two points share the
system (x, y) and their z coordinates are the system z plus offsets −0.2
and +0.2; with exactly 3 stars the three points share (x, y) with z
offsets −0.4, 0, +0.4 (the system position itself being computed with the
leftover-variable radius, see C2). -/
theorem renderSystem_offsets (lo : Star) (sys : MultipleStarSystem) :
    (∀ a b, sys.stars = [a, b] →
      renderSystem lo sys = Except.ok
        [PlotCmd.scatter
          [(starPoint (lo.distance.light_years : ℝ) a).1,
           (starPoint (lo.distance.light_years : ℝ) a).1]
          [(starPoint (lo.distance.light_years : ℝ) a).2.1,
           (starPoint (lo.distance.light_years : ℝ) a).2.1]
          [(starPoint (lo.distance.light_years : ℝ) a).2.2 - 0.2,
           (starPoint (lo.distance.light_years : ℝ) a).2.2 + 0.2]
          [star_class_color a.star_class, star_class_color b.star_class],
         PlotCmd.text (starPoint (lo.distance.light_years : ℝ) a).1
           (starPoint (lo.distance.light_years : ℝ) a).2.1
           (starPoint (lo.distance.light_years : ℝ) a).2.2 sys.name]) ∧
    (∀ a b c, sys.stars = [a, b, c] →
      renderSystem lo sys = Except.ok
        [PlotCmd.scatter
          [(starPoint (lo.distance.light_years : ℝ) a).1,
           (starPoint (lo.distance.light_years : ℝ) a).1,
           (starPoint (lo.distance.light_years : ℝ) a).1]
          [(starPoint (lo.distance.light_years : ℝ) a).2.1,
           (starPoint (lo.distance.light_years : ℝ) a).2.1,
           (starPoint (lo.distance.light_years : ℝ) a).2.1]
          [(starPoint (lo.distance.light_years : ℝ) a).2.2 - 0.4,
           (starPoint (lo.distance.light_years : ℝ) a).2.2,
           (starPoint (lo.distance.light_years : ℝ) a).2.2 + 0.4]
          [star_class_color a.star_class, star_class_color b.star_class,
           star_class_color c.star_class],
         PlotCmd.text (starPoint (lo.distance.light_years : ℝ) a).1
           (starPoint (lo.distance.light_years : ℝ) a).2.1
           (starPoint (lo.distance.light_years : ℝ) a).2.2 sys.name]) := by
  constructor
  · intro a b hstars
    simp [renderSystem, hstars]
  · intro a b c hstars
    simp [renderSystem, hstars]

/-- C4 witness: the amended statement applied to the concrete two-star
system `exSys` with leftover star `exS1`. -/
theorem renderSystem_offsets_witness :
    renderSystem exS1 exSys = Except.ok
      [PlotCmd.scatter
        [(starPoint (exS1.distance.light_years : ℝ) exT1).1,
         (starPoint (exS1.distance.light_years : ℝ) exT1).1]
        [(starPoint (exS1.distance.light_years : ℝ) exT1).2.1,
         (starPoint (exS1.distance.light_years : ℝ) exT1).2.1]
        [(starPoint (exS1.distance.light_years : ℝ) exT1).2.2 - 0.2,
         (starPoint (exS1.distance.light_years : ℝ) exT1).2.2 + 0.2]
        [star_class_color exT1.star_class, star_class_color exT2.star_class],
       PlotCmd.text (starPoint (exS1.distance.light_years : ℝ) exT1).1
         (starPoint (exS1.distance.light_years : ℝ) exT1).2.1
         (starPoint (exS1.distance.light_years : ℝ) exT1).2.2 exSys.name] :=
  (renderSystem_offsets exS1 exSys).1 exT1 exT2 rfl

/-! ### Claim C10: empty single-star list plus non-empty system list -/

/-- C10: if the single-star list is empty and the multiple-star list is
not, `display_plot` fails with the `NameError` raised by the first read of
the stale loop variable, before producing any multiple-star point. -/
theorem display_plot_empty_singles_name_error (ns : NearestStars)
    (h1 : ns.single_star_systems = []) (h2 : ns.multiple_star_systems ≠ []) :
    display_plot ns = Except.error "NameError" := by
  cases hm : ns.multiple_star_systems with
  | nil => exact absurd hm h2
  | cons a l =>
    unfold display_plot
    rw [h1, hm]
    rfl

/-- C10 witness: the concrete catalog with no single stars and one system. -/
theorem display_plot_empty_singles_name_error_witness :
    display_plot exEmptySinglesNS = Except.error "NameError" :=
  display_plot_empty_singles_name_error exEmptySinglesNS rfl
    (by simp [exEmptySinglesNS])

/-! ### Concrete JSON documents -/

/-- A raw star object that passes `Star.parse`. -/
def exStarJson : Json :=
  Json.obj [("name", Json.str "P"),
    ("right_ascension", Json.obj [("hours", Json.num 14),
      ("minutes", Json.num 29), ("seconds", Json.num 43)]),
    ("declination", Json.obj [("degrees", Json.num (-62)),
      ("minutes", Json.num 40), ("seconds", Json.num 46)]),
    ("distance", Json.obj [("light_years", Json.num 4)]),
    ("class", Json.str "M")]

/-- A raw catalog whose only multiple-star system has exactly one star. -/
def oneStarSystemDoc : Json :=
  Json.obj [("single_star_systems", Json.arr []),
    ("multiple_star_systems", Json.arr
      [Json.obj [("name", Json.str "Solo"), ("stars", Json.arr [exStarJson])]])]

/-- A raw star object whose class tag is the open spectral type `"M5"`. -/
def exStarM5Json : Json :=
  Json.obj [("name", Json.str "P"),
    ("right_ascension", Json.obj [("hours", Json.num 14),
      ("minutes", Json.num 29), ("seconds", Json.num 43)]),
    ("declination", Json.obj [("degrees", Json.num (-62)),
      ("minutes", Json.num 40), ("seconds", Json.num 46)]),
    ("distance", Json.obj [("light_years", Json.num 4)]),
    ("class", Json.str "M5")]

/-- A raw catalog whose star has hours 99, minutes −5, seconds 1000 and
declination degrees −200, minutes 61, seconds 61: every range constraint
of the claim is violated. -/
def outOfRangeDoc : Json :=
  Json.obj [("single_star_systems", Json.arr [Json.obj [("name", Json.str "X"),
    ("right_ascension", Json.obj [("hours", Json.num 99),
      ("minutes", Json.num (-5)), ("seconds", Json.num 1000)]),
    ("declination", Json.obj [("degrees", Json.num (-200)),
      ("minutes", Json.num 61), ("seconds", Json.num 61)]),
    ("distance", Json.obj [("light_years", Json.num 4)]),
    ("class", Json.str "M")]]),
    ("multiple_star_systems", Json.arr [])]

/-! ### Claim C3: no minimum star count is enforced -/

/-- C3 counterexample: a catalog whose multiple-star system has exactly one
star passes validation — it is not rejected. -/
theorem one_star_system_validates :
    (NearestStars.parse oneStarSystemDoc).isSome = true := by decide

theorem parseList_isSome {α : Type} (p : Json → Option α) (xs : List Json)
    (h : ∀ x ∈ xs, (p x).isSome = true) : (parseList p xs).isSome = true := by
  induction xs with
  | nil => rfl
  | cons x xs ih =>
    rcases Option.isSome_iff_exists.mp (h x (List.mem_cons_self x xs)) with ⟨a, ha⟩
    rcases Option.isSome_iff_exists.mp
      (ih (fun y hy => h y (List.mem_cons_of_mem x hy))) with ⟨rest, hrest⟩
    simp [parseList, ha, hrest]

/-- C3 amended: `MultipleStarSystem` validation accepts ANY number of valid
stars — in particular 2 or 3 stars succeed, but so does a single star (or
none): no minimum length is enforced. -/
theorem mss_any_star_count_validates (n : String) (stars : List Json)
    (h : ∀ x ∈ stars, (Star.parse x).isSome = true) :
    (MultipleStarSystem.parse
      (Json.obj [("name", Json.str n), ("stars", Json.arr stars)])).isSome
      = true := by
  rcases Option.isSome_iff_exists.mp (parseList_isSome Star.parse stars h)
    with ⟨ss, hss⟩
  simp [MultipleStarSystem.parse, mssKeys, getKey, parseStr, parseStarList, hss]

/-- C3 witness: the amended statement at a one-element star list. -/
theorem mss_any_star_count_validates_witness :
    (MultipleStarSystem.parse
      (Json.obj [("name", Json.str "Solo"),
        ("stars", Json.arr [exStarJson])])).isSome = true :=
  mss_any_star_count_validates "Solo" [exStarJson] (by decide)

/-! ### Claim C7: the class tag is a closed enumeration -/

/-- C7 counterexample: the open spectral type `"M5"` is NOT accepted — the
enum lookup fails and a star document carrying `"class": "M5"` is rejected
by validation, so no color can be resolved for it. -/
theorem open_spectral_type_rejected :
    StarClass.ofString "M5" = none ∧ Star.parse exStarM5Json = none := by
  constructor <;> decide

/-- C7 amended: the class field accepts exactly the nine one-letter enum
values `A F G K M L T Y D`; any other string, `"M5"` included, fails
validation, and the color lookup is a total function on the enum rather
than a leading-character lookup on strings. -/
theorem starclass_accepts_only_enum_values :
    (∀ s : String, (StarClass.ofString s).isSome =
      ((s == "A") || (s == "F") || (s == "G") || (s == "K") || (s == "M") ||
       (s == "L") || (s == "T") || (s == "Y") || (s == "D"))) ∧
    StarClass.ofString "M5" = none := by
  constructor
  · intro s
    unfold StarClass.ofString
    repeat' split
    all_goals simp_all [beq_iff_eq]
  · decide

/-! ### Claim C9: no range validation on angular components -/

/-- A raw right-ascension object with the given numeric components. -/
def raNumJson (hh mm : Int) (ss : ℚ) : Json :=
  Json.obj [("hours", Json.num (hh : ℚ)), ("minutes", Json.num (mm : ℚ)),
    ("seconds", Json.num ss)]

/-- A raw declination object with the given numeric components. -/
def decNumJson (dd mm : Int) (ss : ℚ) : Json :=
  Json.obj [("degrees", Json.num (dd : ℚ)), ("minutes", Json.num (mm : ℚ)),
    ("seconds", Json.num ss)]

/-- C9 counterexample: a catalog with hours 99, minutes −5, seconds 1000
and declination degrees −200 (every claimed range violated) validates
successfully. -/
theorem out_of_range_coordinates_accepted :
    (NearestStars.parse outOfRangeDoc).isSome = true := by decide

/-- C9 amended: the schema performs NO range validation on angular
components — any integer hours/degrees/minutes and any rational seconds
value is accepted verbatim. -/
theorem angular_parse_no_range_check :
    ∀ (hh dd mm : Int) (ss : ℚ),
      RightAscension.parse (raNumJson hh mm ss) = some ⟨hh, mm, ss⟩ ∧
      Declination.parse (decNumJson dd mm ss) = some ⟨dd, mm, ss⟩ := by
  intro hh dd mm ss
  constructor <;>
    simp [RightAscension.parse, Declination.parse, raNumJson, decNumJson,
      raKeys, decKeys, getKey, parseInt, parseNum]

/-! ### Claim C8: strict rejection of undeclared fields

`hasUndeclaredField` holds of a raw catalog document that carries, at some
nesting level reachable through the declared structure (catalog object,
star object, angular-coordinate object, distance object, or
multiple-star-system object), a key that the schema does not declare. -/

/-- Does the object hold a key outside the allowed list? -/
def objHasExtraKey (allowed : List String) (kvs : List (String × Json)) : Bool :=
  kvs.any (fun p => !(allowed.contains p.1))

/-- An undeclared key directly in a right-ascension object. -/
def badRA (j : Json) : Bool :=
  match j with
  | .obj kvs => objHasExtraKey raKeys kvs
  | _ => false

/-- An undeclared key directly in a declination object. -/
def badDec (j : Json) : Bool :=
  match j with
  | .obj kvs => objHasExtraKey decKeys kvs
  | _ => false

/-- An undeclared key directly in a distance object. -/
def badDist (j : Json) : Bool :=
  match j with
  | .obj kvs => objHasExtraKey distKeys kvs
  | _ => false

/-- An undeclared key in a star object or in one of its nested coordinate
or distance objects. -/
def badStar (j : Json) : Bool :=
  match j with
  | .obj kvs =>
    objHasExtraKey starKeys kvs ||
      (match getKey kvs "right_ascension" with
        | some ra => badRA ra
        | none => false) ||
      (match getKey kvs "declination" with
        | some de => badDec de
        | none => false) ||
      (match getKey kvs "distance" with
        | some di => badDist di
        | none => false)
  | _ => false

/-- An undeclared key in a multiple-star-system object or in one of its
member stars. -/
def badSystem (j : Json) : Bool :=
  match j with
  | .obj kvs =>
    objHasExtraKey mssKeys kvs ||
      (match getKey kvs "stars" with
        | some (Json.arr xs) => xs.any badStar
        | _ => false)
  | _ => false

/-- An undeclared key at any nesting level of a raw catalog document. -/
def hasUndeclaredField (j : Json) : Bool :=
  match j with
  | .obj kvs =>
    objHasExtraKey catalogKeys kvs ||
      (match getKey kvs "single_star_systems" with
        | some (Json.arr xs) => xs.any badStar
        | _ => false) ||
      (match getKey kvs "multiple_star_systems" with
        | some (Json.arr xs) => xs.any badSystem
        | _ => false)
  | _ => false

theorem all_eq_false_of_extra (allowed : List String)
    (kvs : List (String × Json)) (h : objHasExtraKey allowed kvs = true) :
    kvs.all (fun p => allowed.contains p.1) = false := by
  rcases List.any_eq_true.mp h with ⟨p, hp, hbad⟩
  cases hall : kvs.all (fun q => allowed.contains q.1)
  · rfl
  · have hmem := List.all_eq_true.mp hall p hp
    simp only [Bool.not_eq_true'] at hbad
    simp at hbad hmem
    exact absurd hmem hbad

theorem ra_parse_none_of_bad (j : Json) (h : badRA j = true) :
    RightAscension.parse j = none := by
  cases j with
  | obj kvs =>
    have hall := all_eq_false_of_extra raKeys kvs (by simpa [badRA] using h)
    simp only [RightAscension.parse]
    rw [hall]
    simp
  | num q => simp [badRA] at h
  | str s => simp [badRA] at h
  | arr xs => simp [badRA] at h

theorem dec_parse_none_of_bad (j : Json) (h : badDec j = true) :
    Declination.parse j = none := by
  cases j with
  | obj kvs =>
    have hall := all_eq_false_of_extra decKeys kvs (by simpa [badDec] using h)
    simp only [Declination.parse]
    rw [hall]
    simp
  | num q => simp [badDec] at h
  | str s => simp [badDec] at h
  | arr xs => simp [badDec] at h

theorem dist_parse_none_of_bad (j : Json) (h : badDist j = true) :
    Distance.parse j = none := by
  cases j with
  | obj kvs =>
    have hall := all_eq_false_of_extra distKeys kvs (by simpa [badDist] using h)
    simp only [Distance.parse]
    rw [hall]
    simp
  | num q => simp [badDist] at h
  | str s => simp [badDist] at h
  | arr xs => simp [badDist] at h

theorem parseList_none_of_mem {α : Type} (p : Json → Option α)
    (xs : List Json) (x : Json) (hx : x ∈ xs) (hnone : p x = none) :
    parseList p xs = none := by
  induction xs with
  | nil => cases hx
  | cons y ys ih =>
    rcases List.mem_cons.mp hx with rfl | hmem
    · simp [parseList, hnone]
    · cases hy : p y
      · simp [parseList, hy]
      · simp [parseList, hy, ih hmem]

theorem star_parse_none_of_bad (j : Json) (h : badStar j = true) :
    Star.parse j = none := by
  cases j with
  | num q => simp [badStar] at h
  | str s => simp [badStar] at h
  | arr xs => simp [badStar] at h
  | obj kvs =>
    simp only [badStar, Bool.or_eq_true] at h
    by_cases hall : kvs.all (fun p => starKeys.contains p.1)
    case neg =>
      have hall2 : (kvs.all fun p => starKeys.contains p.1) = false := by
        simpa using hall
      simp only [Star.parse]
      rw [hall2]
      simp
    case pos =>
      rcases h with ((hx | hra) | hde) | hdi
      · rw [all_eq_false_of_extra starKeys kvs hx] at hall
        exact absurd hall (by simp)
      · split at hra
        case h_2 => exact absurd hra (by simp)
        case h_1 ra heq =>
          have hnra := ra_parse_none_of_bad ra hra
          cases hn : (getKey kvs "name").bind parseStr with
          | none => simp [Star.parse, hall, hn]
          | some n => simp [Star.parse, hall, hn, heq, hnra]
      · split at hde
        case h_2 => exact absurd hde (by simp)
        case h_1 de heq =>
          have hnde := dec_parse_none_of_bad de hde
          cases hn : (getKey kvs "name").bind parseStr with
          | none => simp [Star.parse, hall, hn]
          | some n =>
            cases hra2 : (getKey kvs "right_ascension").bind RightAscension.parse with
            | none => simp [Star.parse, hall, hn, hra2]
            | some ra2 => simp [Star.parse, hall, hn, hra2, heq, hnde]
      · split at hdi
        case h_2 => exact absurd hdi (by simp)
        case h_1 di heq =>
          have hndi := dist_parse_none_of_bad di hdi
          cases hn : (getKey kvs "name").bind parseStr with
          | none => simp [Star.parse, hall, hn]
          | some n =>
            cases hra2 : (getKey kvs "right_ascension").bind RightAscension.parse with
            | none => simp [Star.parse, hall, hn, hra2]
            | some ra2 =>
              cases hde2 : (getKey kvs "declination").bind Declination.parse with
              | none => simp [Star.parse, hall, hn, hra2, hde2]
              | some de2 => simp [Star.parse, hall, hn, hra2, hde2, heq, hndi]

theorem mss_parse_none_of_bad (j : Json)
    (h : badSystem j = true) : MultipleStarSystem.parse j = none := by
  cases j with
  | num q => simp [badSystem] at h
  | str s => simp [badSystem] at h
  | arr xs => simp [badSystem] at h
  | obj kvs =>
    simp only [badSystem, Bool.or_eq_true] at h
    by_cases hall : kvs.all (fun p => mssKeys.contains p.1)
    case neg =>
      have hall2 : (kvs.all fun p => mssKeys.contains p.1) = false := by
        simpa using hall
      simp only [MultipleStarSystem.parse]
      rw [hall2]
      simp
    case pos =>
      rcases h with hx | hstars
      · rw [all_eq_false_of_extra mssKeys kvs hx] at hall
        exact absurd hall (by simp)
      · split at hstars
        case h_2 => exact absurd hstars (by simp)
        case h_1 xs heq =>
          rcases List.any_eq_true.mp hstars with ⟨x, hxmem, hxbad⟩
          have hplist := parseList_none_of_mem Star.parse xs x hxmem
            (star_parse_none_of_bad x hxbad)
          cases hn : (getKey kvs "name").bind parseStr with
          | none => simp [MultipleStarSystem.parse, hall, hn]
          | some n =>
            simp [MultipleStarSystem.parse, hall, hn, heq, parseStarList, hplist]

/-- C8: a raw document carrying a field undeclared in the schema at any
nesting level — catalog, star, angular coordinate, distance, or
multiple-star-system object — fails catalog validation: no value is
produced. -/
theorem nearest_stars_parse_none_of_undeclared (j : Json)
    (h : hasUndeclaredField j = true) : NearestStars.parse j = none := by
  cases j with
  | num q => simp [hasUndeclaredField] at h
  | str s => simp [hasUndeclaredField] at h
  | arr xs => simp [hasUndeclaredField] at h
  | obj kvs =>
    simp only [hasUndeclaredField, Bool.or_eq_true] at h
    by_cases hall : kvs.all (fun p => catalogKeys.contains p.1)
    case neg =>
      have hall2 : (kvs.all fun p => catalogKeys.contains p.1) = false := by
        simpa using hall
      simp only [NearestStars.parse]
      rw [hall2]
      simp
    case pos =>
      rcases h with (hx | hsingles) | hmultiples
      · rw [all_eq_false_of_extra catalogKeys kvs hx] at hall
        exact absurd hall (by simp)
      · split at hsingles
        case h_2 => exact absurd hsingles (by simp)
        case h_1 xs heq =>
          rcases List.any_eq_true.mp hsingles with ⟨x, hxmem, hxbad⟩
          have hplist := parseList_none_of_mem Star.parse xs x hxmem
            (star_parse_none_of_bad x hxbad)
          simp [NearestStars.parse, hall, heq, parseStarList, hplist]
      · split at hmultiples
        case h_2 => exact absurd hmultiples (by simp)
        case h_1 xs heq =>
          rcases List.any_eq_true.mp hmultiples with ⟨x, hxmem, hxbad⟩
          have hplist := parseList_none_of_mem MultipleStarSystem.parse xs x hxmem
            (mss_parse_none_of_bad x hxbad)
          cases hs : (getKey kvs "single_star_systems").bind parseStarList with
          | none => simp [NearestStars.parse, hall, hs]
          | some singles =>
            simp [NearestStars.parse, hall, hs, heq, parseSystemList, hplist]

/-- A catalog document whose star carries an extra `"epoch"` key inside its
right-ascension object. -/
def extraKeyDoc : Json :=
  Json.obj [("single_star_systems", Json.arr [Json.obj [("name", Json.str "P"),
    ("right_ascension", Json.obj [("hours", Json.num 14),
      ("minutes", Json.num 29), ("seconds", Json.num 43),
      ("epoch", Json.str "J2000")]),
    ("declination", Json.obj [("degrees", Json.num (-62)),
      ("minutes", Json.num 40), ("seconds", Json.num 46)]),
    ("distance", Json.obj [("light_years", Json.num 4)]),
    ("class", Json.str "M")]]),
    ("multiple_star_systems", Json.arr [])]

/-- C8 witness: the undeclared-key theorem applied to a document with an
extra key nested three levels deep. -/
theorem nearest_stars_parse_none_of_undeclared_witness :
    NearestStars.parse extraKeyDoc = none :=
  nearest_stars_parse_none_of_undeclared extraKeyDoc (by decide)

end NSM
